import Mathlib

/-
Shallow embedding of the AIResearchScribe backend (Express + drizzle + zod).

Source files embedded here:
  * client/src/lib/openai.ts   — articleResponseSchema / validateArticleResponse
  * db/schema.ts               — articles and citations tables
  * server routes (the full version with pagination, archive and bulk archive,
    registered by registerRoutes): POST /api/articles/generate,
    GET /api/articles, PATCH /api/articles/:id/archive,
    PATCH /api/articles/bulk/archive, GET /api/articles/:id/citations.

External effects (OpenAI chat / image / speech calls, S3 upload, the system
clock) are modelled as oracle parameters; database statements are modelled as
pure state transformations on a `DB` record.  A counter records how many
provider stages were invoked, so that "zero external provider calls" is a
provable statement.
-/

namespace Scribe

/-- JSON values, as produced by `JSON.parse` / express body parsing.  Numbers
are modelled as integers: every number occurring in the claims (citation
years, article ids, page/limit parameters) is integral. -/
inductive Json where
  | null
  | bool (b : Bool)
  | num (n : Int)
  | str (s : String)
  | arr (elems : List Json)
  | obj (fields : List (String × Json))

/-- Property lookup on a JSON object: `j[k]` in JS, `undefined` (`none`) when
the key is absent or the value is not an object.  This models destructuring
such as `const { topic } = req.body`. -/
def Json.get : Json → String → Option Json
  | .obj fields, k => (fields.find? (fun p => p.1 == k)).map (fun p => p.2)
  | _, _ => none

/-- JS falsiness of a defined value (`!v`): null, false, 0 and the empty
string are falsy; objects and arrays are always truthy. -/
def Json.falsy : Json → Bool
  | .null => true
  | .bool b => !b
  | .num n => n == 0
  | .str s => s == ""
  | .arr _ => false
  | .obj _ => false

/-- The `typeof v === 'string'` test. -/
def Json.isStr : Json → Bool
  | .str _ => true
  | _ => false

/-- Whether the value is a JSON object. -/
def Json.isObj : Json → Bool
  | .obj _ => true
  | _ => false

/-- The `Array.isArray(v)` test. -/
def Json.isArr : Json → Bool
  | .arr _ => true
  | _ => false

/-- Lookup in the field list of a JSON object (first occurrence, as JS objects
have unique keys after parsing). -/
def jsonLookup (fields : List (String × Json)) (k : String) : Option Json :=
  (fields.find? (fun p => p.1 == k)).map (fun p => p.2)

/-! ## Response validator (client/src/lib/openai.ts) -/

/-- One entry of `citations` in `articleResponseSchema`: `source` is a
required string, the other four fields are `.optional()`. -/
structure CitationEntry where
  source : String
  author : Option String := none
  year : Option Int := none
  url : Option String := none
  quote : Option String := none
deriving DecidableEq, Repr

/-- The validated shape of a provider reply (`ArticleResponse` in the
source): three required strings and a required citation list. -/
structure ArticleResponse where
  title : String
  content : String
  summary : String
  citations : List CitationEntry
deriving DecidableEq, Repr

/-- A required `z.string()` field: the key must be present and hold a
string (zod rejects null and every non-string value). -/
def parseRequiredString (fields : List (String × Json)) (k : String) :
    Except String String :=
  match jsonLookup fields k with
  | some (.str s) => .ok s
  | _ => .error "Required string field missing or wrong type"

/-- A `z.string().optional()` field: an absent key is fine, a present key
must hold a string (null is rejected: optional is not nullable). -/
def parseOptionalString (fields : List (String × Json)) (k : String) :
    Except String (Option String) :=
  match jsonLookup fields k with
  | none => .ok none
  | some (.str s) => .ok (some s)
  | some _ => .error "Expected string"

/-- A `z.number().optional()` field. -/
def parseOptionalNumber (fields : List (String × Json)) (k : String) :
    Except String (Option Int) :=
  match jsonLookup fields k with
  | none => .ok none
  | some (.num n) => .ok (some n)
  | some _ => .error "Expected number"

/-- One element of the `citations` array: must be an object with a string
`source`; `author`, `year`, `url`, `quote` optional.  Unknown keys are
dropped, as zod objects strip by default. -/
def parseCitationEntry (j : Json) : Except String CitationEntry :=
  match j with
  | .obj fields =>
    match parseRequiredString fields "source" with
    | .error e => .error e
    | .ok source =>
      match parseOptionalString fields "author" with
      | .error e => .error e
      | .ok author =>
        match parseOptionalNumber fields "year" with
        | .error e => .error e
        | .ok year =>
          match parseOptionalString fields "url" with
          | .error e => .error e
          | .ok url =>
            match parseOptionalString fields "quote" with
            | .error e => .error e
            | .ok quote => .ok { source, author, year, url, quote }
  | _ => .error "Expected object"

/-- Elementwise validation of the citation array (`z.array(...)`): the first
failing entry fails the whole parse. -/
def parseCitationList : List Json → Except String (List CitationEntry)
  | [] => .ok []
  | j :: rest =>
    match parseCitationEntry j with
    | .error e => .error e
    | .ok c =>
      match parseCitationList rest with
      | .error e => .error e
      | .ok cs => .ok (c :: cs)

/-- Specification-side predicate: the value is an object carrying a string
`source` — what the claim calls "an object having a string source". -/
def hasStringSource (j : Json) : Bool :=
  match j with
  | .obj fields =>
    match jsonLookup fields "source" with
    | some (.str _) => true
    | _ => false
  | _ => false

/-- `validateArticleResponse` from client/src/lib/openai.ts:
`articleResponseSchema.parse(data)`, with a zod failure rethrown as an
`Invalid article response format` error.  Rejects any non-object, requires
string `title`, `content`, `summary` and an array `citations` whose entries
each validate; extra top-level keys are ignored. -/
def validateFields (fields : List (String × Json)) : Except String ArticleResponse :=
  match parseRequiredString fields "title" with
  | .error e => .error e
  | .ok title =>
    match parseRequiredString fields "content" with
    | .error e => .error e
    | .ok content =>
      match parseRequiredString fields "summary" with
      | .error e => .error e
      | .ok summary =>
        match jsonLookup fields "citations" with
        | some (.arr elems) =>
          (match parseCitationList elems with
          | .error e => .error e
          | .ok citations => .ok { title, content, summary, citations })
        | _ => .error "Invalid article response format: citations must be an array"

/-- Top level of the schema: `z.object` rejects every non-object input. -/
def validateArticleResponse (data : Json) : Except String ArticleResponse :=
  match data with
  | .obj fields => validateFields fields
  | _ => .error "Invalid article response format: expected object"

/-! ## Data model (db/schema.ts) -/

/-- A row of the `articles` table.  `imageUrl`, `audioUrl` and `userId` are
nullable columns; `archived` defaults to false; both timestamps default to
now() at insert time.  Timestamps are modelled as naturals. -/
structure Article where
  id : Nat
  title : String
  content : String
  summary : String
  imageUrl : Option String
  audioUrl : Option String
  archived : Bool
  createdAt : Nat
  updatedAt : Nat
  userId : Option Nat
deriving DecidableEq, Repr

/-- A row of the `citations` table: `articleId` and `source` are not null,
the rest nullable. -/
structure CitationRow where
  id : Nat
  articleId : Nat
  source : String
  author : Option String
  year : Option Int
  url : Option String
  quote : Option String
deriving DecidableEq, Repr

/-- Database state: the two tables touched by the routes, plus the identity
counters generating fresh primary keys. -/
structure DB where
  articles : List Article
  citations : List CitationRow
  nextArticleId : Nat
  nextCitationId : Nat
deriving DecidableEq, Repr

/-- The empty database; Postgres identity columns start at 1. -/
def DB.empty : DB :=
  { articles := [], citations := [], nextArticleId := 1, nextCitationId := 1 }

/-! ## JS numeric parsing (parseInt and the `|| default` pattern) -/

/-- Leading decimal digits of a character list, or none when there is no
digit (the `NaN` case of `parseInt`); trailing garbage is ignored. -/
def parseDigits (cs : List Char) : Option Nat :=
  let ds := cs.takeWhile (fun c => c.isDigit)
  if ds.isEmpty then none
  else some (ds.foldl (fun acc c => acc * 10 + (c.toNat - 48)) 0)

/-- JS `parseInt(s)` on a string argument: skip leading whitespace, read an
optional sign and then decimal digits; `none` encodes NaN.  (The legacy
`0x` hex prefix is not modelled; no caller passes hex input.) -/
def jsParseInt (s : String) : Option Int :=
  match s.data.dropWhile (fun c => c.isWhitespace) with
  | '-' :: rest => (parseDigits rest).map (fun n => -(n : Int))
  | '+' :: rest => (parseDigits rest).map (fun n => (n : Int))
  | cs => (parseDigits cs).map (fun n => (n : Int))

/-- `parseInt(x)` where `x : string | undefined` comes from `req.query`:
`parseInt(undefined)` parses the string "undefined", which is NaN. -/
def jsParseIntOpt : Option String → Option Int
  | none => none
  | some s => jsParseInt s

/-- The idiom `parseInt(x) || d`: NaN and 0 both fall back to the default. -/
def jsOr : Option Int → Int → Int
  | none, d => d
  | some 0, d => d
  | some n, _ => n

/-! ## HTTP responses -/

/-- Pagination block of the GET /api/articles payload. -/
structure Pagination where
  total : Nat
  page : Nat
  limit : Nat
  totalPages : Nat
deriving DecidableEq, Repr

/-- Payload of GET /api/articles. -/
structure ArticlesPage where
  articles : List Article
  pagination : Pagination
deriving DecidableEq, Repr

/-- The responses the embedded routes produce: 400, 404 and 500 carry the
`{error: string}` body; the 200 payload shape depends on the route. -/
inductive Response where
  | badRequest (error : String)
  | notFound (error : String)
  | serverError (error : String)
  | okArticle (article : Article)
  | okArticles (articles : List Article)
  | okPage (page : ArticlesPage)
  | okCitations (citations : List CitationRow)
deriving DecidableEq, Repr

/-! ## POST /api/articles/generate -/

/-- Oracles standing for the external effects of one generation request.
`chatContent`: `none` when the chat call fails or returns no content
(both throw and become a 500); `some none` when content is returned but
`JSON.parse` fails; `some (some j)` when it parses to `j`.
`imageStage`: the result of the image try-block (DALL-E call, download,
S3 upload, signed URL) — `none` when any step throws.
`audioStage`: the result of the speech try-block — the data: URL, or
`none` when the speech call throws. -/
structure GenOracles where
  apiKeyConfigured : Bool
  chatContent : Option (Option Json)
  imageStage : Option String
  audioStage : Option String

/-- How many times each provider stage was entered during a request (chat
completion, image generation, speech synthesis). -/
structure ProviderCalls where
  chat : Nat
  image : Nat
  audio : Nat
deriving DecidableEq, Repr

/-- The insert block of the generate route: one row into `articles` (with
`imageUrl`, `audioUrl`, `createdAt: new Date()`; `archived` and `updatedAt`
from column defaults), then one insert per validated citation, fanned out
with Promise.all.  Fresh primary keys come from the identity counters. -/
def insertArticleWithCitations (db : DB) (d : ArticleResponse)
    (imageUrl audioUrl : String) (now : Nat) : Article × DB :=
  let article : Article :=
    { id := db.nextArticleId, title := d.title, content := d.content,
      summary := d.summary, imageUrl := some imageUrl, audioUrl := some audioUrl,
      archived := false, createdAt := now, updatedAt := now, userId := none }
  let rows : List CitationRow := d.citations.enum.map (fun p =>
    { id := db.nextCitationId + p.1, articleId := article.id,
      source := p.2.source, author := p.2.author, year := p.2.year,
      url := p.2.url, quote := p.2.quote })
  (article,
   { articles := db.articles ++ [article],
     citations := db.citations ++ rows,
     nextArticleId := db.nextArticleId + 1,
     nextCitationId := db.nextCitationId + rows.length })

/-- The topic guard `if (!topic || typeof topic !== 'string')` — the request
proceeds exactly when the body has a truthy string `topic`. -/
def topicValid (body : Json) : Bool :=
  match body.get "topic" with
  | some v => !v.falsy && v.isStr
  | none => false

/-- POST /api/articles/generate.  Stage order as in the source: topic guard,
API-key guard, chat completion, JSON.parse + validateArticleResponse (both
failures caught and rethrown as one parse error), image try-block (any
failure rethrown — fatal), audio try-block (any failure rethrown — fatal),
then the database insert of article and citations.  Every rethrown error is
caught by the outer handler and becomes a 500 `{error}` response. -/
def generateArticleRoute (body : Json) (o : GenOracles) (now : Nat) (db : DB) :
    Response × DB × ProviderCalls :=
  if !topicValid body then
    (.badRequest "Invalid topic provided", db, ⟨0, 0, 0⟩)
  else if !o.apiKeyConfigured then
    (.serverError "OpenAI API key is not configured", db, ⟨0, 0, 0⟩)
  else match o.chatContent with
  | none => (.serverError "Failed to generate article content", db, ⟨1, 0, 0⟩)
  | some none => (.serverError "Failed to parse generated content", db, ⟨1, 0, 0⟩)
  | some (some raw) =>
    match validateArticleResponse raw with
    | .error _ => (.serverError "Failed to parse generated content", db, ⟨1, 0, 0⟩)
    | .ok articleData =>
      match o.imageStage with
      | none => (.serverError "Failed to generate or process image", db, ⟨1, 1, 0⟩)
      | some imageUrl =>
        match o.audioStage with
        | none => (.serverError "Failed to generate audio content", db, ⟨1, 1, 1⟩)
        | some audioUrl =>
          let inserted := insertArticleWithCitations db articleData imageUrl audioUrl now
          (.okArticle inserted.1, inserted.2, ⟨1, 1, 1⟩)

/-! ## GET /api/articles -/

/-- Insertion step of the sort modelling ORDER BY. -/
def insertSorted {α : Type} (le : α → α → Bool) (a : α) : List α → List α
  | [] => [a]
  | b :: rest => if le a b then a :: b :: rest else b :: insertSorted le a rest

/-- The sort modelling SQL ORDER BY under a boolean comparator (a stable
insertion sort; SQL guarantees only sortedness, which is proved below). -/
def sortBy {α : Type} (le : α → α → Bool) : List α → List α
  | [] => []
  | a :: rest => insertSorted le a (sortBy le rest)

/-- The archive filter: `showArchived ? undefined : eq(articles.archived,
false)` — no restriction when showArchived, otherwise only rows with
`archived = false`. -/
def matchesFilter (showArchived : Bool) (a : Article) : Bool :=
  showArchived || !a.archived

/-- Comparator for `orderBy(createdAt DESC)`. -/
def newestFirst (a b : Article) : Bool :=
  decide (b.createdAt ≤ a.createdAt)

/-- The query pipeline of GET /api/articles: count matching rows, order the
matching rows newest first, apply OFFSET `(page-1)*limit` and LIMIT, and
compute `Math.ceil(total/limit)` (natural ceiling division — page and limit
are positive whenever this is reached, see `getArticlesRoute`). -/
def listArticles (rows : List Article) (showArchived : Bool)
    (page limit : Nat) : ArticlesPage :=
  let filtered := rows.filter (matchesFilter showArchived)
  let total := filtered.length
  let sorted := sortBy newestFirst filtered
  let offset := (page - 1) * limit
  { articles := (sorted.drop offset).take limit,
    pagination :=
      { total := total, page := page, limit := limit,
        totalPages := (total + limit - 1) / limit } }

/-- Lookup of a query-string parameter (`req.query.k`). -/
def queryLookup (query : List (String × String)) (k : String) : Option String :=
  (query.find? (fun p => p.1 == k)).map (fun p => p.2)

/-- GET /api/articles.  `showArchived === 'true'` is an exact string
comparison; `parseInt(page) || 1` and `parseInt(limit) || 9` supply the
defaults.  A negative LIMIT or OFFSET is a Postgres error, caught by the
route and surfaced as a 500; otherwise both are the (then non-negative)
parsed values. -/
def getArticlesRoute (query : List (String × String)) (db : DB) : Response :=
  let showArchived := queryLookup query "showArchived" == some "true"
  let page := jsOr (jsParseIntOpt (queryLookup query "page")) 1
  let limit := jsOr (jsParseIntOpt (queryLookup query "limit")) 9
  let offset := (page - 1) * limit
  if offset < 0 || limit < 0 then
    .serverError "Failed to fetch articles"
  else
    .okPage (listArticles db.articles showArchived page.toNat limit.toNat)

/-! ## PATCH /api/articles/:id/archive and /bulk/archive -/

/-- SQL equality of the integer `id` column against a target value. -/
def idMatches (target : Int) (a : Article) : Bool :=
  (a.id : Int) == target

/-- `UPDATE articles SET archived = flag WHERE id = target`. -/
def archiveSet (target : Int) (flag : Bool) (l : List Article) : List Article :=
  l.map (fun a => if idMatches target a then { a with archived := flag } else a)

/-- PATCH /api/articles/:id/archive: parse the id (400 on NaN), require a
boolean `archived` in the body (400 otherwise), update the matching row and
return it; 404 when `.returning()` yields no row. -/
def setArchivedRoute (idStr : String) (body : Json) (db : DB) :
    Response × DB :=
  match jsParseInt idStr with
  | none => (.badRequest "Invalid article ID", db)
  | some articleId =>
    match body.get "archived" with
    | some (.bool archived) =>
      let updatedArticles := archiveSet articleId archived db.articles
      match (updatedArticles.filter (idMatches articleId)).head? with
      | none => (.notFound "Article not found", db)
      | some updatedArticle =>
          (.okArticle updatedArticle, { db with articles := updatedArticles })
    | _ => (.badRequest "Invalid archived status", db)

/-- SQL `inArray(articles.id, articleIds)`: the integer id column equals
one of the supplied JSON values (non-numeric values match no id). -/
def bulkMatches (ids : List Json) (a : Article) : Bool :=
  ids.any (fun j => match j with
    | .num n => n == (a.id : Int)
    | _ => false)

/-- `UPDATE articles SET archived = flag WHERE id IN (ids)`. -/
def bulkArchiveSet (ids : List Json) (flag : Bool) (l : List Article) :
    List Article :=
  l.map (fun a => if bulkMatches ids a then { a with archived := flag } else a)

/-- PATCH /api/articles/bulk/archive: 400 unless `articleIds` is a non-empty
array and `archived` a boolean; update every matching row, return the updated
rows, 404 when none matched. -/
def bulkArchiveRoute (body : Json) (db : DB) : Response × DB :=
  match body.get "articleIds" with
  | some (.arr ids) =>
    if ids.isEmpty then (.badRequest "Invalid article IDs", db)
    else match body.get "archived" with
    | some (.bool archived) =>
      let updatedArticles := bulkArchiveSet ids archived db.articles
      let updated := updatedArticles.filter (bulkMatches ids)
      if updated.isEmpty then (.notFound "No articles found", db)
      else (.okArticles updated, { db with articles := updatedArticles })
    | _ => (.badRequest "Invalid archived status", db)
  | _ => (.badRequest "Invalid article IDs", db)

/-! ## GET /api/articles/:id/citations -/

/-- `SELECT * FROM citations WHERE article_id = target`. -/
def citationsFor (db : DB) (target : Int) : List CitationRow :=
  db.citations.filter (fun c => (c.articleId : Int) == target)

/-- GET /api/articles/:id/citations: parse the id (400 on NaN) and return
the rows referencing it — an empty list, not an error, when there are none. -/
def getCitationsRoute (idStr : String) (db : DB) : Response :=
  match jsParseInt idStr with
  | none => .badRequest "Invalid article ID"
  | some articleId => .okCitations (citationsFor db articleId)

/-! ## Helper lemmas about the validator -/

theorem parseRequiredString_error_of_none (fields : List (String × Json))
    (k : String) (h : jsonLookup fields k = none) :
    parseRequiredString fields k = .error "Required string field missing or wrong type" := by
  unfold parseRequiredString
  rw [h]

theorem parseCitationEntry_not_ok (j : Json) (h : hasStringSource j = false) :
    ∀ c, parseCitationEntry j ≠ .ok c := by
  intro c
  cases j with
  | obj fields =>
    unfold parseCitationEntry
    unfold hasStringSource at h
    cases hs : jsonLookup fields "source" with
    | none => simp [parseRequiredString, hs]
    | some v =>
      cases v <;> simp_all [parseRequiredString, hs]
  | null => simp [parseCitationEntry]
  | bool b => simp [parseCitationEntry]
  | num n => simp [parseCitationEntry]
  | str s => simp [parseCitationEntry]
  | arr xs => simp [parseCitationEntry]

theorem parseCitationList_error_of_mem (elems : List Json) (j : Json)
    (hj : j ∈ elems) (hbad : ∀ c, parseCitationEntry j ≠ .ok c) :
    ∃ e, parseCitationList elems = .error e := by
  induction elems with
  | nil => cases hj
  | cons x rest ih =>
    cases hx : parseCitationEntry x with
    | error e => exact ⟨e, by simp [parseCitationList, hx]⟩
    | ok c =>
      rcases List.mem_cons.mp hj with h | h
      · subst h
        exact absurd hx (hbad c)
      · rcases ih h with ⟨e, he⟩
        exact ⟨e, by simp [parseCitationList, hx, he]⟩

theorem parseCitationList_length (elems : List Json) (cs : List CitationEntry)
    (h : parseCitationList elems = .ok cs) : cs.length = elems.length := by
  induction elems generalizing cs with
  | nil =>
    simp [parseCitationList] at h
    subst h
    rfl
  | cons x rest ih =>
    unfold parseCitationList at h
    cases hx : parseCitationEntry x with
    | error e => rw [hx] at h; cases h
    | ok c =>
      rw [hx] at h
      cases hr : parseCitationList rest with
      | error e => rw [hr] at h; cases h
      | ok cs2 =>
        rw [hr] at h
        cases h
        simp [ih cs2 hr]

theorem parseCitationList_sources (srcs : List String) :
    parseCitationList (srcs.map (fun src => Json.obj [("source", Json.str src)]))
      = .ok (srcs.map (fun src => ({ source := src } : CitationEntry))) := by
  induction srcs with
  | nil => rfl
  | cons s rest ih =>
    have hentry : parseCitationEntry (Json.obj [("source", Json.str s)])
        = .ok { source := s } := rfl
    simp [parseCitationList, hentry, ih]

/-- C4: validateArticleResponse throws on non-object input, on a missing
required string field title/content/summary (in particular on a reply
missing only summary), and when citations is not a list of objects each
having a string source; it succeeds when optional citation fields are
absent and when citations is an empty list, and every success carries a
citation list read off an actual JSON array — never null. -/
theorem c4_validator_contract :
    (∀ j : Json, j.isObj = false → ∃ e, validateArticleResponse j = .error e)
  ∧ (∀ fields : List (String × Json),
      (jsonLookup fields "title" = none ∨ jsonLookup fields "content" = none
        ∨ jsonLookup fields "summary" = none) →
      ∃ e, validateArticleResponse (.obj fields) = .error e)
  ∧ (∀ fields : List (String × Json),
      (∀ elems, jsonLookup fields "citations" ≠ some (.arr elems)) →
      ∃ e, validateArticleResponse (.obj fields) = .error e)
  ∧ (∀ fields elems j, jsonLookup fields "citations" = some (.arr elems) →
      j ∈ elems → hasStringSource j = false →
      ∃ e, validateArticleResponse (.obj fields) = .error e)
  ∧ (∀ t c s : String, ∀ srcs : List String,
      validateArticleResponse (.obj [("title", .str t), ("content", .str c),
          ("summary", .str s),
          ("citations", .arr (srcs.map (fun src => .obj [("source", .str src)])))])
        = .ok { title := t, content := c, summary := s,
                citations := srcs.map (fun src => { source := src }) })
  ∧ (∀ j r, validateArticleResponse j = .ok r →
      ∃ fields elems, j = .obj fields
        ∧ jsonLookup fields "citations" = some (.arr elems)
        ∧ r.citations.length = elems.length) := by
  refine ⟨?_, ?_, ?_, ?_, ?_, ?_⟩
  · intro j h
    cases j <;> simp_all [Json.isObj, validateArticleResponse]
  · intro fields h
    show ∃ e, validateFields fields = .error e
    unfold validateFields
    rcases h with h | h | h
    · rw [parseRequiredString_error_of_none fields "title" h]
      exact ⟨_, rfl⟩
    · cases ht : parseRequiredString fields "title" with
      | error e => exact ⟨e, rfl⟩
      | ok t =>
        rw [parseRequiredString_error_of_none fields "content" h]
        exact ⟨_, rfl⟩
    · cases ht : parseRequiredString fields "title" with
      | error e => exact ⟨e, rfl⟩
      | ok t =>
        cases hc : parseRequiredString fields "content" with
        | error e => exact ⟨e, rfl⟩
        | ok c =>
          rw [parseRequiredString_error_of_none fields "summary" h]
          exact ⟨_, rfl⟩
  · intro fields h
    show ∃ e, validateFields fields = .error e
    unfold validateFields
    cases ht : parseRequiredString fields "title" with
    | error e => exact ⟨e, rfl⟩
    | ok t =>
      cases hc : parseRequiredString fields "content" with
      | error e => exact ⟨e, rfl⟩
      | ok c =>
        cases hs : parseRequiredString fields "summary" with
        | error e => exact ⟨e, rfl⟩
        | ok s =>
          cases hcit : jsonLookup fields "citations" with
          | none => exact ⟨_, rfl⟩
          | some v =>
            cases v with
            | arr elems => exact absurd hcit (h elems)
            | null => exact ⟨_, rfl⟩
            | bool b => exact ⟨_, rfl⟩
            | num n => exact ⟨_, rfl⟩
            | str sv => exact ⟨_, rfl⟩
            | obj fs => exact ⟨_, rfl⟩
  · intro fields elems j hcit hj hbad
    rcases parseCitationList_error_of_mem elems j hj
        (parseCitationEntry_not_ok j hbad) with ⟨e, he⟩
    show ∃ e, validateFields fields = .error e
    cases ht : parseRequiredString fields "title" with
    | error e2 => exact ⟨e2, by simp [validateFields, ht]⟩
    | ok t =>
      cases hc : parseRequiredString fields "content" with
      | error e2 => exact ⟨e2, by simp [validateFields, ht, hc]⟩
      | ok c =>
        cases hs : parseRequiredString fields "summary" with
        | error e2 => exact ⟨e2, by simp [validateFields, ht, hc, hs]⟩
        | ok s => exact ⟨e, by simp [validateFields, ht, hc, hs, hcit, he]⟩
  · intro t c s srcs
    have h1 : parseRequiredString [("title", Json.str t), ("content", Json.str c),
        ("summary", Json.str s),
        ("citations", Json.arr (srcs.map (fun src => Json.obj [("source", Json.str src)])))]
        "title" = .ok t := rfl
    have h2 : parseRequiredString [("title", Json.str t), ("content", Json.str c),
        ("summary", Json.str s),
        ("citations", Json.arr (srcs.map (fun src => Json.obj [("source", Json.str src)])))]
        "content" = .ok c := rfl
    have h3 : parseRequiredString [("title", Json.str t), ("content", Json.str c),
        ("summary", Json.str s),
        ("citations", Json.arr (srcs.map (fun src => Json.obj [("source", Json.str src)])))]
        "summary" = .ok s := rfl
    have h4 : jsonLookup [("title", Json.str t), ("content", Json.str c),
        ("summary", Json.str s),
        ("citations", Json.arr (srcs.map (fun src => Json.obj [("source", Json.str src)])))]
        "citations"
        = some (Json.arr (srcs.map (fun src => Json.obj [("source", Json.str src)]))) := rfl
    simp [validateArticleResponse, validateFields, h1, h2, h3, h4,
      parseCitationList_sources]
  · intro j r h
    cases j with
    | obj fields =>
      refine ⟨fields, ?_⟩
      replace h : validateFields fields = .ok r := h
      cases ht : parseRequiredString fields "title" with
      | error e => simp [validateFields, ht] at h
      | ok t =>
        cases hc : parseRequiredString fields "content" with
        | error e => simp [validateFields, ht, hc] at h
        | ok c =>
          cases hs : parseRequiredString fields "summary" with
          | error e => simp [validateFields, ht, hc, hs] at h
          | ok s =>
            cases hcit : jsonLookup fields "citations" with
            | none => simp [validateFields, ht, hc, hs, hcit] at h
            | some v =>
              cases v with
              | arr elems =>
                cases hl : parseCitationList elems with
                | error e => simp [validateFields, ht, hc, hs, hcit, hl] at h
                | ok cs =>
                  have hval : validateFields fields
                      = .ok { title := t, content := c, summary := s,
                              citations := cs } := by
                    simp [validateFields, ht, hc, hs, hcit, hl]
                  rw [hval] at h
                  injection h with h2
                  subst h2
                  exact ⟨elems, rfl, rfl, parseCitationList_length elems cs hl⟩
              | null => simp [validateFields, ht, hc, hs, hcit] at h
              | bool b => simp [validateFields, ht, hc, hs, hcit] at h
              | num n => simp [validateFields, ht, hc, hs, hcit] at h
              | str sv => simp [validateFields, ht, hc, hs, hcit] at h
              | obj fs => simp [validateFields, ht, hc, hs, hcit] at h
    | null => cases h
    | bool b => cases h
    | num n => cases h
    | str s => cases h
    | arr xs => cases h

/-- Witness for C4 at concrete inputs: a boolean reply is rejected, a reply
missing only summary is rejected, a citation entry without a string source
is rejected, and a reply with empty citations and absent optional fields is
accepted. -/
theorem c4_validator_contract_witness :
    (∃ e, validateArticleResponse (Json.bool true) = .error e)
  ∧ (∃ e, validateArticleResponse (Json.obj [("title", Json.str "T"),
      ("content", Json.str "C"), ("citations", Json.arr [])]) = .error e)
  ∧ (∃ e, validateArticleResponse (Json.obj [("title", Json.str "T"),
      ("content", Json.str "C"), ("summary", Json.str "S"),
      ("citations", Json.arr [Json.obj []])]) = .error e)
  ∧ validateArticleResponse (Json.obj [("title", Json.str "T"),
      ("content", Json.str "C"), ("summary", Json.str "S"),
      ("citations", Json.arr [])])
      = .ok { title := "T", content := "C", summary := "S", citations := [] } := by
  refine ⟨c4_validator_contract.1 (Json.bool true) rfl,
    c4_validator_contract.2.1 _ (Or.inr (Or.inr rfl)),
    c4_validator_contract.2.2.2.1 _ [Json.obj []] (Json.obj []) rfl
      (List.mem_singleton.mpr rfl) rfl,
    ?_⟩
  have h := c4_validator_contract.2.2.2.2.1 "T" "C" "S" []
  simpa using h

/-! ## Fixtures for the generation pipeline -/

/-- A provider reply of the expected shape. -/
def goodReply : Json :=
  Json.obj [("title", Json.str "T"), ("content", Json.str "C"),
            ("summary", Json.str "S"), ("citations", Json.arr [])]

/-- A provider reply whose title is the empty string; `z.string()` accepts
it. -/
def emptyTitleReply : Json :=
  Json.obj [("title", Json.str ""), ("content", Json.str "C"),
            ("summary", Json.str "S"), ("citations", Json.arr [])]

/-- A request body with a valid non-empty topic. -/
def topicBody : Json := Json.obj [("topic", Json.str "quantum computing")]

/-- Oracles for a run where only the image stage fails. -/
def oraclesImageFail : GenOracles :=
  { apiKeyConfigured := true, chatContent := some (some goodReply),
    imageStage := none, audioStage := some "data:audio/mpeg;base64,QQ==" }

/-- Oracles for a fully successful run whose validated reply has an empty
title. -/
def oraclesEmptyTitle : GenOracles :=
  { apiKeyConfigured := true, chatContent := some (some emptyTitleReply),
    imageStage := some "https://bucket/img.png",
    audioStage := some "data:audio/mpeg;base64,QQ==" }

/-- Counterexample to C1 as stated: with a valid topic and a successful,
schema-valid text generation, a failure in the image-acquisition stage does
NOT lead to a persisted Article with `imageUrl` absent — the route responds
500 and the database is unchanged (the catch block rethrows, aborting the
pipeline before persistence). -/
theorem c1_counterexample :
    (generateArticleRoute topicBody oraclesImageFail 0 DB.empty).1
        = Response.serverError "Failed to generate or process image"
    ∧ (generateArticleRoute topicBody oraclesImageFail 0 DB.empty).2.1
        = DB.empty := ⟨rfl, rfl⟩

/-- C1 (amended): a failure in the image-acquisition stage or the
audio-acquisition stage is fatal to the whole request: no Article is
persisted (the database is unchanged) and the response is never a 200 with
an Article. -/
theorem c1_media_failure_fatal (body : Json) (o : GenOracles) (now : Nat)
    (db : DB) (h : o.imageStage = none ∨ o.audioStage = none) :
    (generateArticleRoute body o now db).2.1 = db
    ∧ ∀ a, (generateArticleRoute body o now db).1 ≠ Response.okArticle a := by
  constructor
  · rcases h with h | h <;> unfold generateArticleRoute <;>
      (repeat' split) <;> simp_all
  · intro a
    rcases h with h | h <;> unfold generateArticleRoute <;>
      (repeat' split) <;> simp_all

/-- Witness for C1 (amended) at the concrete image-failure run. -/
theorem c1_media_failure_fatal_witness :
    (generateArticleRoute topicBody oraclesImageFail 0 DB.empty).2.1 = DB.empty
    ∧ ∀ a, (generateArticleRoute topicBody oraclesImageFail 0 DB.empty).1
        ≠ Response.okArticle a :=
  c1_media_failure_fatal topicBody oraclesImageFail 0 DB.empty (Or.inl rfl)

/-- Counterexample to C2 as stated: for the valid non-empty topic
"quantum computing", a run in which every stage succeeds returns a 200
whose Article has an empty `title` — the schema accepts empty strings, so
generateArticle can return an Article with an empty required field. -/
theorem c2_counterexample :
    (generateArticleRoute topicBody oraclesEmptyTitle 0 DB.empty).1
      = Response.okArticle
          { id := 1, title := "", content := "C", summary := "S",
            imageUrl := some "https://bucket/img.png",
            audioUrl := some "data:audio/mpeg;base64,QQ==",
            archived := false, createdAt := 0, updatedAt := 0,
            userId := none } := rfl

/-- C2 (amended): whenever the route returns 200 with an Article, the
chat stage produced parseable JSON that passed validateArticleResponse,
and the Article's title, content and summary are exactly the validated
strings — present, but possibly empty. -/
theorem c2_required_fields_from_schema (body : Json) (o : GenOracles)
    (now : Nat) (db : DB) (a : Article)
    (h : (generateArticleRoute body o now db).1 = Response.okArticle a) :
    ∃ raw d, o.chatContent = some (some raw)
      ∧ validateArticleResponse raw = Except.ok d
      ∧ a.title = d.title ∧ a.content = d.content ∧ a.summary = d.summary := by
  cases htv : topicValid body with
  | false => simp [generateArticleRoute, htv] at h
  | true =>
    cases hkey : o.apiKeyConfigured with
    | false => simp [generateArticleRoute, htv, hkey] at h
    | true =>
      cases hchat : o.chatContent with
      | none => simp [generateArticleRoute, htv, hkey, hchat] at h
      | some mraw =>
        cases mraw with
        | none => simp [generateArticleRoute, htv, hkey, hchat] at h
        | some raw =>
          cases hval : validateArticleResponse raw with
          | error e =>
            simp [generateArticleRoute, htv, hkey, hchat, hval] at h
          | ok d =>
            cases himg : o.imageStage with
            | none =>
              simp [generateArticleRoute, htv, hkey, hchat, hval, himg] at h
            | some iu =>
              cases haud : o.audioStage with
              | none =>
                simp [generateArticleRoute, htv, hkey, hchat, hval, himg,
                  haud] at h
              | some au =>
                refine ⟨raw, d, rfl, hval, ?_⟩
                have hred : (generateArticleRoute body o now db).1
                    = Response.okArticle
                        (insertArticleWithCitations db d iu au now).1 := by
                  simp [generateArticleRoute, htv, hkey, hchat, hval, himg,
                    haud]
                rw [hred] at h
                injection h with h2
                subst h2
                simp [insertArticleWithCitations]

/-- Witness for C2 (amended) at the concrete empty-title run. -/
theorem c2_required_fields_from_schema_witness :
    ∃ raw d, oraclesEmptyTitle.chatContent = some (some raw)
      ∧ validateArticleResponse raw = Except.ok d
      ∧ ({ id := 1, title := "", content := "C", summary := "S",
            imageUrl := some "https://bucket/img.png",
            audioUrl := some "data:audio/mpeg;base64,QQ==",
            archived := false, createdAt := 0, updatedAt := 0,
            userId := none } : Article).title = d.title
      ∧ ({ id := 1, title := "", content := "C", summary := "S",
            imageUrl := some "https://bucket/img.png",
            audioUrl := some "data:audio/mpeg;base64,QQ==",
            archived := false, createdAt := 0, updatedAt := 0,
            userId := none } : Article).content = d.content
      ∧ ({ id := 1, title := "", content := "C", summary := "S",
            imageUrl := some "https://bucket/img.png",
            audioUrl := some "data:audio/mpeg;base64,QQ==",
            archived := false, createdAt := 0, updatedAt := 0,
            userId := none } : Article).summary = d.summary :=
  c2_required_fields_from_schema topicBody oraclesEmptyTitle 0 DB.empty _ rfl

/-- C3: a request whose body has a missing, empty-string or non-string
topic is answered 400 with zero provider calls and no state change; a
request with a non-empty string topic is answered either 500 with an error
string, or 200 with the Article that was appended to the articles table. -/
theorem c3_generate_endpoint_contract :
    (∀ (body : Json) (o : GenOracles) (now : Nat) (db : DB),
      (body.get "topic" = none ∨ body.get "topic" = some (Json.str "")
        ∨ (∃ v, body.get "topic" = some v ∧ v.isStr = false)) →
      generateArticleRoute body o now db
        = (Response.badRequest "Invalid topic provided", db, ⟨0, 0, 0⟩))
  ∧ (∀ (body : Json) (o : GenOracles) (now : Nat) (db : DB) (s : String),
      body.get "topic" = some (Json.str s) → s ≠ "" →
      (∃ msg, (generateArticleRoute body o now db).1
          = Response.serverError msg)
      ∨ (∃ a, (generateArticleRoute body o now db).1 = Response.okArticle a
          ∧ (generateArticleRoute body o now db).2.1.articles
              = db.articles ++ [a])) := by
  constructor
  · intro body o now db h
    have htv : topicValid body = false := by
      rcases h with h | h | ⟨v, hv, hs⟩
      · simp [topicValid, h]
      · simp [topicValid, h, Json.falsy]
      · simp [topicValid, hv, hs]
    simp [generateArticleRoute, htv]
  · intro body o now db s hget hne
    have htv : topicValid body = true := by
      have hbeq : (s == "") = false := beq_eq_false_iff_ne.mpr hne
      simp [topicValid, hget, Json.falsy, Json.isStr, hbeq]
    cases hkey : o.apiKeyConfigured with
    | false =>
      exact Or.inl ⟨"OpenAI API key is not configured",
        by simp [generateArticleRoute, htv, hkey]⟩
    | true =>
      cases hchat : o.chatContent with
      | none =>
        exact Or.inl ⟨"Failed to generate article content",
          by simp [generateArticleRoute, htv, hkey, hchat]⟩
      | some mraw =>
        cases mraw with
        | none =>
          exact Or.inl ⟨"Failed to parse generated content",
            by simp [generateArticleRoute, htv, hkey, hchat]⟩
        | some raw =>
          cases hval : validateArticleResponse raw with
          | error e =>
            exact Or.inl ⟨"Failed to parse generated content", by
              simp [generateArticleRoute, htv, hkey, hchat, hval]⟩
          | ok d =>
            cases himg : o.imageStage with
            | none =>
              exact Or.inl ⟨"Failed to generate or process image", by
                simp [generateArticleRoute, htv, hkey, hchat, hval, himg]⟩
            | some iu =>
              cases haud : o.audioStage with
              | none =>
                exact Or.inl ⟨"Failed to generate audio content", by
                  simp [generateArticleRoute, htv, hkey, hchat, hval, himg,
                    haud]⟩
              | some au =>
                refine Or.inr ⟨(insertArticleWithCitations db d iu au now).1,
                  ?_, ?_⟩
                · simp [generateArticleRoute, htv, hkey, hchat, hval, himg,
                    haud]
                · have hred : (generateArticleRoute body o now db).2.1
                      = (insertArticleWithCitations db d iu au now).2 := by
                    simp [generateArticleRoute, htv, hkey, hchat, hval, himg,
                      haud]
                  rw [hred]
                  simp [insertArticleWithCitations]

/-- Witness for C3: the empty-body request is answered 400 with zero
provider calls, and the valid-topic request lands in the 500-or-200
disjunction. -/
theorem c3_generate_endpoint_contract_witness :
    generateArticleRoute (Json.obj []) oraclesImageFail 0 DB.empty
        = (Response.badRequest "Invalid topic provided", DB.empty, ⟨0, 0, 0⟩)
    ∧ ((∃ msg, (generateArticleRoute topicBody oraclesImageFail 0 DB.empty).1
          = Response.serverError msg)
      ∨ (∃ a, (generateArticleRoute topicBody oraclesImageFail 0 DB.empty).1
            = Response.okArticle a
          ∧ (generateArticleRoute topicBody oraclesImageFail 0 DB.empty).2.1.articles
              = DB.empty.articles ++ [a])) :=
  ⟨c3_generate_endpoint_contract.1 (Json.obj []) oraclesImageFail 0 DB.empty
      (Or.inl rfl),
   c3_generate_endpoint_contract.2 topicBody oraclesImageFail 0 DB.empty
      "quantum computing" rfl (by decide)⟩

/-! ## Helper lemmas about the archive updates -/

theorem archiveSet_mem (n : Int) (flag : Bool) (l : List Article) (x : Article)
    (hx : x ∈ archiveSet n flag l) :
    ∃ a ∈ l, x = if idMatches n a then { a with archived := flag } else a := by
  unfold archiveSet at hx
  rcases List.mem_map.mp hx with ⟨a, ha, heq⟩
  exact ⟨a, ha, heq.symm⟩

theorem archiveSet_filter_archived (n : Int) (flag : Bool) (l : List Article) :
    ∀ x ∈ (archiveSet n flag l).filter (idMatches n), x.archived = flag := by
  intro x hx
  rcases List.mem_filter.mp hx with ⟨hmem, hmatch⟩
  rcases archiveSet_mem n flag l x hmem with ⟨a, ha, heq⟩
  by_cases hc : idMatches n a = true
  · rw [heq]
    simp [hc]
  · rw [heq] at hmatch
    simp [hc] at hmatch

theorem archiveSet_preserves_match (n : Int) (flag : Bool) (l : List Article)
    (h : ∃ a ∈ l, idMatches n a = true) :
    ∃ x ∈ archiveSet n flag l, idMatches n x = true := by
  rcases h with ⟨a, ha, hm⟩
  refine ⟨if idMatches n a then { a with archived := flag } else a, ?_, ?_⟩
  · unfold archiveSet
    exact List.mem_map_of_mem _ ha
  · rw [if_pos hm]
    exact hm

theorem archiveSet_filter_ne_nil (n : Int) (flag : Bool) (l : List Article)
    (h : ∃ a ∈ l, idMatches n a = true) :
    (archiveSet n flag l).filter (idMatches n) ≠ [] := by
  rcases archiveSet_preserves_match n flag l h with ⟨x, hx, hm⟩
  intro hnil
  rw [List.filter_eq_nil_iff] at hnil
  exact hnil x hx hm

/-- One successful archive request: with a parseable id, a boolean body and
at least one matching row, the route answers 200 with a row whose archived
flag is the requested one, and the table becomes the updated table. -/
theorem setArchivedRoute_ok (idStr : String) (n : Int) (flag : Bool) (db : DB)
    (hp : jsParseInt idStr = some n)
    (hex : ∃ a ∈ db.articles, idMatches n a = true) :
    ∃ a1, setArchivedRoute idStr (Json.obj [("archived", Json.bool flag)]) db
        = (Response.okArticle a1,
           { db with articles := archiveSet n flag db.articles })
      ∧ a1.archived = flag := by
  have hbody : (Json.obj [("archived", Json.bool flag)]).get "archived"
      = some (Json.bool flag) := rfl
  have hne := archiveSet_filter_ne_nil n flag db.articles hex
  cases hhead : ((archiveSet n flag db.articles).filter (idMatches n)).head? with
  | none => exact absurd (List.head?_eq_none_iff.mp hhead) hne
  | some a1 =>
    refine ⟨a1, ?_, ?_⟩
    · simp [setArchivedRoute, hp, hbody, hhead]
    · exact archiveSet_filter_archived n flag db.articles a1
        (List.mem_of_mem_head? (by rw [hhead]; rfl))

/-- C7: archiving is idempotent — for a body `archived: flag` and an id
that matches an existing article, two consecutive requests both answer 200
and both returned rows carry the requested flag; for an id matching no
article the route answers 404 and leaves the database unchanged. -/
theorem c7_set_archived_idempotent :
    (∀ (db : DB) (idStr : String) (n : Int) (flag : Bool),
      jsParseInt idStr = some n →
      (∃ a ∈ db.articles, idMatches n a = true) →
      ∃ a1 db1 a2 db2,
        setArchivedRoute idStr (Json.obj [("archived", Json.bool flag)]) db
          = (Response.okArticle a1, db1)
        ∧ a1.archived = flag
        ∧ setArchivedRoute idStr (Json.obj [("archived", Json.bool flag)]) db1
          = (Response.okArticle a2, db2)
        ∧ a2.archived = flag)
  ∧ (∀ (db : DB) (idStr : String) (n : Int) (flag : Bool),
      jsParseInt idStr = some n →
      (∀ a ∈ db.articles, idMatches n a = false) →
      setArchivedRoute idStr (Json.obj [("archived", Json.bool flag)]) db
        = (Response.notFound "Article not found", db)) := by
  constructor
  · intro db idStr n flag hp hex
    rcases setArchivedRoute_ok idStr n flag db hp hex with ⟨a1, heq1, hflag1⟩
    have hex2 : ∃ a ∈ ({ db with articles := archiveSet n flag db.articles}
        : DB).articles, idMatches n a = true :=
      archiveSet_preserves_match n flag db.articles hex
    rcases setArchivedRoute_ok idStr n flag
        { db with articles := archiveSet n flag db.articles } hp hex2 with
      ⟨a2, heq2, hflag2⟩
    exact ⟨a1, _, a2, _, heq1, hflag1, heq2, hflag2⟩
  · intro db idStr n flag hp hnone
    have hbody : (Json.obj [("archived", Json.bool flag)]).get "archived"
        = some (Json.bool flag) := rfl
    have hfil : (archiveSet n flag db.articles).filter (idMatches n) = [] := by
      rw [List.filter_eq_nil_iff]
      intro x hx
      rcases archiveSet_mem n flag db.articles x hx with ⟨a, ha, heq⟩
      have hm := hnone a ha
      rw [heq]
      simp [hm]
    simp [setArchivedRoute, hp, hbody, hfil]

/-- A concrete stored article used by the mutation claims. -/
def sampleArticle (n : Nat) : Article :=
  { id := n, title := "t", content := "c", summary := "s", imageUrl := none,
    audioUrl := none, archived := false, createdAt := n, updatedAt := n,
    userId := none }

/-- A database holding exactly the articles with ids 1 and 2. -/
def bulkDb12 : DB :=
  { articles := [sampleArticle 1, sampleArticle 2], citations := [],
    nextArticleId := 3, nextCitationId := 1 }

/-- Witness for C7 at a concrete database: archiving article 1 twice. -/
theorem c7_set_archived_idempotent_witness :
    ∃ a1 db1 a2 db2,
      setArchivedRoute "1" (Json.obj [("archived", Json.bool true)]) bulkDb12
        = (Response.okArticle a1, db1)
      ∧ a1.archived = true
      ∧ setArchivedRoute "1" (Json.obj [("archived", Json.bool true)]) db1
        = (Response.okArticle a2, db2)
      ∧ a2.archived = true :=
  c7_set_archived_idempotent.1 bulkDb12 "1" 1 true (by decide)
    ⟨sampleArticle 1, by decide, by decide⟩

/-! ## Frame properties of the archive mutations -/

theorem bulkMatches_update (ids : List Json) (flag : Bool) (a : Article) :
    bulkMatches ids { a with archived := flag } = bulkMatches ids a := rfl

theorem bulkArchiveSet_mem (ids : List Json) (flag : Bool) (l : List Article)
    (x : Article) (hx : x ∈ bulkArchiveSet ids flag l) :
    ∃ a ∈ l, x = if bulkMatches ids a then { a with archived := flag }
      else a := by
  unfold bulkArchiveSet at hx
  rcases List.mem_map.mp hx with ⟨a, ha, heq⟩
  exact ⟨a, ha, heq.symm⟩

/-- An article stored with both timestamps equal to 5 and archived false. -/
def c9Article : Article :=
  { id := 1, title := "t", content := "c", summary := "s", imageUrl := none,
    audioUrl := none, archived := false, createdAt := 5, updatedAt := 5,
    userId := none }

/-- A database holding exactly `c9Article`. -/
def c9Db : DB :=
  { articles := [c9Article], citations := [], nextArticleId := 2,
    nextCitationId := 1 }

/-- Counterexample to C9 as stated: archiving article 1 flips `archived`
but leaves `updatedAt` at its pre-mutation value 5 — the update statement
`.set(\x7b archived \x7d)` takes no timestamp at all, so `updatedAt` is not
bumped to the time of the mutation. -/
theorem c9_counterexample :
    (setArchivedRoute "1" (Json.obj [("archived", Json.bool true)]) c9Db).2.articles
      = [{ c9Article with archived := true }]
    ∧ c9Article.archived = false
    ∧ c9Article.updatedAt = 5
    ∧ ({ c9Article with archived := true }).updatedAt = 5 := by
  refine ⟨by decide, rfl, rfl, rfl⟩

/-- Agreement on every column of the articles table except `archived`. -/
def agreesExceptArchived (x a : Article) : Prop :=
  x.id = a.id ∧ x.title = a.title ∧ x.content = a.content
  ∧ x.summary = a.summary ∧ x.imageUrl = a.imageUrl ∧ x.audioUrl = a.audioUrl
  ∧ x.createdAt = a.createdAt ∧ x.updatedAt = a.updatedAt ∧ x.userId = a.userId

theorem agreesExceptArchived_refl (x : Article) : agreesExceptArchived x x :=
  ⟨rfl, rfl, rfl, rfl, rfl, rfl, rfl, rfl, rfl⟩

/-- C9 (amended): after any archive mutation — single or bulk, with any
request body — every row of the articles table agrees with a previously
stored row on every column other than `archived`: `createdAt` is immutable
and `updatedAt` is left untouched (not bumped), since neither update
statement sets it. -/
theorem c9_archive_frame :
    (∀ (idStr : String) (body : Json) (db : DB),
      ∀ x ∈ (setArchivedRoute idStr body db).2.articles,
        ∃ a ∈ db.articles, agreesExceptArchived x a)
  ∧ (∀ (body : Json) (db : DB),
      ∀ x ∈ (bulkArchiveRoute body db).2.articles,
        ∃ a ∈ db.articles, agreesExceptArchived x a) := by
  constructor
  · intro idStr body db x hx
    cases hp : jsParseInt idStr with
    | none =>
      simp [setArchivedRoute, hp] at hx
      exact ⟨x, hx, agreesExceptArchived_refl x⟩
    | some n =>
      cases hb : body.get "archived" with
      | none =>
        simp [setArchivedRoute, hp, hb] at hx
        exact ⟨x, hx, agreesExceptArchived_refl x⟩
      | some v =>
        cases v with
        | bool flag =>
          cases hhead : ((archiveSet n flag db.articles).filter
              (idMatches n)).head? with
          | none =>
            simp [setArchivedRoute, hp, hb, hhead] at hx
            exact ⟨x, hx, agreesExceptArchived_refl x⟩
          | some a1 =>
            simp [setArchivedRoute, hp, hb, hhead] at hx
            rcases archiveSet_mem n flag db.articles x hx with ⟨a, ha, heq⟩
            refine ⟨a, ha, ?_⟩
            by_cases hc : idMatches n a = true
            · rw [heq, if_pos hc]
              exact ⟨rfl, rfl, rfl, rfl, rfl, rfl, rfl, rfl, rfl⟩
            · rw [heq, if_neg hc]
              exact agreesExceptArchived_refl a
        | null =>
          simp [setArchivedRoute, hp, hb] at hx
          exact ⟨x, hx, agreesExceptArchived_refl x⟩
        | num m =>
          simp [setArchivedRoute, hp, hb] at hx
          exact ⟨x, hx, agreesExceptArchived_refl x⟩
        | str s2 =>
          simp [setArchivedRoute, hp, hb] at hx
          exact ⟨x, hx, agreesExceptArchived_refl x⟩
        | arr elems =>
          simp [setArchivedRoute, hp, hb] at hx
          exact ⟨x, hx, agreesExceptArchived_refl x⟩
        | obj fs =>
          simp [setArchivedRoute, hp, hb] at hx
          exact ⟨x, hx, agreesExceptArchived_refl x⟩
  · intro body db x hx
    cases hids : body.get "articleIds" with
    | none =>
      simp [bulkArchiveRoute, hids] at hx
      exact ⟨x, hx, agreesExceptArchived_refl x⟩
    | some v =>
      cases v with
      | arr ids =>
        cases hemp : ids.isEmpty with
        | true =>
          simp [bulkArchiveRoute, hids, hemp] at hx
          exact ⟨x, hx, agreesExceptArchived_refl x⟩
        | false =>
          cases hb : body.get "archived" with
          | none =>
            simp [bulkArchiveRoute, hids, hemp, hb] at hx
            exact ⟨x, hx, agreesExceptArchived_refl x⟩
          | some w =>
            cases w with
            | bool flag =>
              cases hflt : (bulkArchiveSet ids flag db.articles).filter
                  (bulkMatches ids) with
              | nil =>
                simp [bulkArchiveRoute, hids, hemp, hb, hflt] at hx
                exact ⟨x, hx, agreesExceptArchived_refl x⟩
              | cons y ys =>
                simp [bulkArchiveRoute, hids, hemp, hb, hflt] at hx
                rcases bulkArchiveSet_mem ids flag db.articles x hx with
                  ⟨a, ha, heq⟩
                refine ⟨a, ha, ?_⟩
                by_cases hc : bulkMatches ids a = true
                · rw [heq, if_pos hc]
                  exact ⟨rfl, rfl, rfl, rfl, rfl, rfl, rfl, rfl, rfl⟩
                · rw [heq, if_neg hc]
                  exact agreesExceptArchived_refl a
            | null =>
              simp [bulkArchiveRoute, hids, hemp, hb] at hx
              exact ⟨x, hx, agreesExceptArchived_refl x⟩
            | num m =>
              simp [bulkArchiveRoute, hids, hemp, hb] at hx
              exact ⟨x, hx, agreesExceptArchived_refl x⟩
            | str s2 =>
              simp [bulkArchiveRoute, hids, hemp, hb] at hx
              exact ⟨x, hx, agreesExceptArchived_refl x⟩
            | arr elems2 =>
              simp [bulkArchiveRoute, hids, hemp, hb] at hx
              exact ⟨x, hx, agreesExceptArchived_refl x⟩
            | obj fs =>
              simp [bulkArchiveRoute, hids, hemp, hb] at hx
              exact ⟨x, hx, agreesExceptArchived_refl x⟩
      | null =>
        simp [bulkArchiveRoute, hids] at hx
        exact ⟨x, hx, agreesExceptArchived_refl x⟩
      | bool b =>
        simp [bulkArchiveRoute, hids] at hx
        exact ⟨x, hx, agreesExceptArchived_refl x⟩
      | num m =>
        simp [bulkArchiveRoute, hids] at hx
        exact ⟨x, hx, agreesExceptArchived_refl x⟩
      | str s2 =>
        simp [bulkArchiveRoute, hids] at hx
        exact ⟨x, hx, agreesExceptArchived_refl x⟩
      | obj fs =>
        simp [bulkArchiveRoute, hids] at hx
        exact ⟨x, hx, agreesExceptArchived_refl x⟩

/-- Witness for C9 (amended): the archived copy of article 1 agrees with a
stored article on every column except archived. -/
theorem c9_archive_frame_witness :
    ∃ a ∈ c9Db.articles,
      agreesExceptArchived { c9Article with archived := true } a :=
  c9_archive_frame.1 "1" (Json.obj [("archived", Json.bool true)]) c9Db
    { c9Article with archived := true } (by decide)

/-! ## Bulk archive -/

/-- `.returning()` of the bulk update: filtering the updated table for the
matching rows is the same as updating the matching rows of the old table. -/
theorem bulk_update_filter (ids : List Json) (flag : Bool) (l : List Article) :
    (bulkArchiveSet ids flag l).filter (bulkMatches ids)
      = (l.filter (bulkMatches ids)).map
          (fun a => { a with archived := flag }) := by
  induction l with
  | nil => rfl
  | cons a rest ih =>
    by_cases hc : bulkMatches ids a = true
    · simp [bulkArchiveSet, List.filter_cons, hc, bulkMatches_update, ih,
        bulkArchiveSet] at ih ⊢
    · simp [bulkArchiveSet, List.filter_cons, hc, ih] at ih ⊢

/-- The request body for bulk-archiving ids 1, 2 and 3. -/
def bulkBody123 : Json :=
  Json.obj [("articleIds", Json.arr [Json.num 1, Json.num 2, Json.num 3]),
            ("archived", Json.bool true)]

/-- C6: bulk archive answers 400 (without updating) when `articleIds` is
missing, not an array, or empty, and when `archived` is not a boolean; on
valid input it sets the flag on every matching row, returns exactly the
updated rows, answers 404 only when zero ids matched, and skips
non-matching ids silently — concretely, ids [1,2,3] with id 3 absent yield
a 2-element list, not a 404. -/
theorem c6_bulk_archive_contract :
    (∀ (body : Json) (db : DB),
      (body.get "articleIds" = none
        ∨ (∃ v, body.get "articleIds" = some v ∧ v.isArr = false)
        ∨ body.get "articleIds" = some (Json.arr [])) →
      ∃ msg, bulkArchiveRoute body db = (Response.badRequest msg, db))
  ∧ (∀ (body : Json) (db : DB) (ids : List Json),
      body.get "articleIds" = some (Json.arr ids) → ids ≠ [] →
      (∀ flag, body.get "archived" ≠ some (Json.bool flag)) →
      bulkArchiveRoute body db
        = (Response.badRequest "Invalid archived status", db))
  ∧ (∀ (body : Json) (db : DB) (ids : List Json) (flag : Bool),
      body.get "articleIds" = some (Json.arr ids) → ids ≠ [] →
      body.get "archived" = some (Json.bool flag) →
      ((∀ a ∈ db.articles, bulkMatches ids a = false) →
        bulkArchiveRoute body db
          = (Response.notFound "No articles found", db))
      ∧ ((∃ a ∈ db.articles, bulkMatches ids a = true) →
        bulkArchiveRoute body db
          = (Response.okArticles
              ((db.articles.filter (bulkMatches ids)).map
                (fun a => { a with archived := flag })),
             { db with articles := bulkArchiveSet ids flag db.articles })))
  ∧ (bulkArchiveRoute bulkBody123 bulkDb12).1
      = Response.okArticles [{ sampleArticle 1 with archived := true },
          { sampleArticle 2 with archived := true }] := by
  refine ⟨?_, ?_, ?_, by decide⟩
  · intro body db h
    rcases h with h | ⟨v, hv, hva⟩ | h
    · exact ⟨"Invalid article IDs", by simp [bulkArchiveRoute, h]⟩
    · refine ⟨"Invalid article IDs", ?_⟩
      cases v <;> simp_all [Json.isArr] <;> simp [bulkArchiveRoute, hv]
    · exact ⟨"Invalid article IDs", by simp [bulkArchiveRoute, h]⟩
  · intro body db ids hids hne hnb
    have hemp : ids.isEmpty = false := by
      cases ids with
      | nil => exact absurd rfl hne
      | cons x rest => rfl
    cases hb : body.get "archived" with
    | none => simp [bulkArchiveRoute, hids, hemp, hb]
    | some w =>
      cases w with
      | bool flag => exact absurd hb (hnb flag)
      | null => simp [bulkArchiveRoute, hids, hemp, hb]
      | num m => simp [bulkArchiveRoute, hids, hemp, hb]
      | str s2 => simp [bulkArchiveRoute, hids, hemp, hb]
      | arr elems => simp [bulkArchiveRoute, hids, hemp, hb]
      | obj fs => simp [bulkArchiveRoute, hids, hemp, hb]
  · intro body db ids flag hids hne hb
    have hemp : ids.isEmpty = false := by
      cases ids with
      | nil => exact absurd rfl hne
      | cons x rest => rfl
    constructor
    · intro hnomatch
      have hfil : (bulkArchiveSet ids flag db.articles).filter
          (bulkMatches ids) = [] := by
        rw [bulk_update_filter, List.filter_eq_nil_iff.mpr]
        · rfl
        · intro a ha
          simp [hnomatch a ha]
      simp [bulkArchiveRoute, hids, hemp, hb, hfil]
    · intro hmatch
      have hfil : (bulkArchiveSet ids flag db.articles).filter
          (bulkMatches ids)
          = (db.articles.filter (bulkMatches ids)).map
              (fun a => { a with archived := flag }) :=
        bulk_update_filter ids flag db.articles
      have hnonnil : (db.articles.filter (bulkMatches ids)) ≠ [] := by
        rcases hmatch with ⟨a, ha, hm⟩
        intro hnil
        exact absurd hm (by simpa using List.filter_eq_nil_iff.mp hnil a ha)
      have hune : ((bulkArchiveSet ids flag db.articles).filter
          (bulkMatches ids)).isEmpty = false := by
        rw [hfil]
        cases hflt : db.articles.filter (bulkMatches ids) with
        | nil => exact absurd hflt hnonnil
        | cons y ys => rfl
      simp [bulkArchiveRoute, hids, hemp, hb, hune, hfil]
      exact hmatch

/-- Witness for C6: a missing id list is rejected, a string `archived` is
rejected, and bulk-archiving [1,2] over the two-article database both
matches and succeeds. -/
theorem c6_bulk_archive_contract_witness :
    (∃ msg, bulkArchiveRoute (Json.obj []) bulkDb12
        = (Response.badRequest msg, bulkDb12))
    ∧ bulkArchiveRoute
        (Json.obj [("articleIds", Json.arr [Json.num 1]),
                   ("archived", Json.str "yes")]) bulkDb12
        = (Response.badRequest "Invalid archived status", bulkDb12)
    ∧ bulkArchiveRoute bulkBody123 bulkDb12
        = (Response.okArticles
            ((bulkDb12.articles.filter
                (bulkMatches [Json.num 1, Json.num 2, Json.num 3])).map
              (fun a => { a with archived := true })),
           { bulkDb12 with articles := bulkArchiveSet [Json.num 1, Json.num 2, Json.num 3] true bulkDb12.articles }) :=
  ⟨c6_bulk_archive_contract.1 (Json.obj []) bulkDb12 (Or.inl rfl),
   c6_bulk_archive_contract.2.1
     (Json.obj [("articleIds", Json.arr [Json.num 1]),
                ("archived", Json.str "yes")]) bulkDb12 [Json.num 1] rfl
     (List.cons_ne_nil _ _) (fun flag h => by cases h),
   (c6_bulk_archive_contract.2.2.1 bulkBody123 bulkDb12
       [Json.num 1, Json.num 2, Json.num 3] true rfl (List.cons_ne_nil _ _) rfl).2
     ⟨sampleArticle 1, by decide, by decide⟩⟩

/-! ## Pagination -/

theorem insertSorted_perm {α : Type} (le : α → α → Bool) (a : α)
    (l : List α) : (insertSorted le a l).Perm (a :: l) := by
  induction l with
  | nil => exact List.Perm.refl _
  | cons b rest ih =>
    simp only [insertSorted]
    by_cases h : le a b = true
    · rw [if_pos h]
    · rw [if_neg h]
      exact (List.Perm.cons b ih).trans (List.Perm.swap a b rest)

theorem sortBy_perm {α : Type} (le : α → α → Bool) (l : List α) :
    (sortBy le l).Perm l := by
  induction l with
  | nil => exact List.Perm.refl _
  | cons a rest ih =>
    simp only [sortBy]
    exact (insertSorted_perm le a (sortBy le rest)).trans (List.Perm.cons a ih)

theorem insertSorted_sorted {α : Type} (le : α → α → Bool)
    (htrans : ∀ a b c, le a b = true → le b c = true → le a c = true)
    (htotal : ∀ a b, (le a b || le b a) = true)
    (a : α) (l : List α)
    (hl : List.Pairwise (fun x y => le x y = true) l) :
    List.Pairwise (fun x y => le x y = true) (insertSorted le a l) := by
  induction l with
  | nil => simp [insertSorted]
  | cons b rest ih =>
    rcases hl with _ | ⟨hb, hrest⟩
    simp only [insertSorted]
    by_cases h : le a b = true
    · rw [if_pos h]
      refine List.Pairwise.cons ?_ (List.Pairwise.cons hb hrest)
      intro x hx
      rcases List.mem_cons.mp hx with rfl | hx2
      · exact h
      · exact htrans a b x h (hb x hx2)
    · rw [if_neg h]
      refine List.Pairwise.cons ?_ (ih hrest)
      intro x hx
      have hx2 : x ∈ a :: rest := (insertSorted_perm le a rest).mem_iff.mp hx
      rcases List.mem_cons.mp hx2 with rfl | hx3
      · have htot := htotal x b
        have hxb : le x b = false := by
          cases h2 : le x b
          · rfl
          · exact absurd h2 h
        cases hba : le b x
        · rw [hxb, hba] at htot
          simp at htot
        · rfl
      · exact hb x hx3

theorem sortBy_sorted {α : Type} (le : α → α → Bool)
    (htrans : ∀ a b c, le a b = true → le b c = true → le a c = true)
    (htotal : ∀ a b, (le a b || le b a) = true) (l : List α) :
    List.Pairwise (fun x y => le x y = true) (sortBy le l) := by
  induction l with
  | nil => simp [sortBy]
  | cons a rest ih =>
    simp only [sortBy]
    exact insertSorted_sorted le htrans htotal a (sortBy le rest) ih

theorem newestFirst_trans (a b c : Article) (h1 : newestFirst a b = true)
    (h2 : newestFirst b c = true) : newestFirst a c = true := by
  simp only [newestFirst, decide_eq_true_eq] at *
  omega

theorem newestFirst_total (a b : Article) :
    (newestFirst a b || newestFirst b a) = true := by
  simp only [newestFirst, Bool.or_eq_true, decide_eq_true_eq]
  omega

/-- Every returned article comes from the table and passes the archive
filter. -/
theorem listArticles_mem (rows : List Article) (sa : Bool) (page limit : Nat) :
    ∀ a ∈ (listArticles rows sa page limit).articles,
      a ∈ rows ∧ matchesFilter sa a = true := by
  intro a ha
  simp only [listArticles] at ha
  have hsub : (((sortBy newestFirst (rows.filter (matchesFilter sa))).drop
      ((page - 1) * limit)).take limit).Sublist
      (sortBy newestFirst (rows.filter (matchesFilter sa))) :=
    (List.take_sublist _ _).trans (List.drop_sublist _ _)
  have h1 : a ∈ sortBy newestFirst (rows.filter (matchesFilter sa)) :=
    hsub.subset ha
  have h2 : a ∈ rows.filter (matchesFilter sa) :=
    ((sortBy_perm newestFirst (rows.filter (matchesFilter sa))).mem_iff).mp h1
  exact List.mem_filter.mp h2

/-- Ten stored non-archived articles with distinct creation times. -/
def sampleRows10 : List Article :=
  (List.range 10).map (fun i => sampleArticle (i + 1))

/-- C5: for positive page and limit the route returns at most limit
matching (filtered) articles ordered newest createdAt first, skipping
(page-1)*limit of them, with totalPages the ceiling of total/limit (stated
by its Galois characterisation), and a page past the last gives an empty
list; concretely, 10 non-archived articles with limit 9 give 9 articles and
totalPages 2 on page 1, and page 2 holds exactly the remaining one. -/
theorem c5_pagination_contract :
    (∀ (rows : List Article) (sa : Bool) (page limit : Nat),
      1 ≤ page → 1 ≤ limit →
      ((listArticles rows sa page limit).articles.length ≤ limit
      ∧ (listArticles rows sa page limit).pagination.total
          = (rows.filter (matchesFilter sa)).length
      ∧ (∀ k, (listArticles rows sa page limit).pagination.totalPages ≤ k
          ↔ (rows.filter (matchesFilter sa)).length ≤ k * limit)
      ∧ List.Pairwise (fun a b => b.createdAt ≤ a.createdAt)
          (listArticles rows sa page limit).articles
      ∧ (∀ a ∈ (listArticles rows sa page limit).articles,
          a ∈ rows ∧ matchesFilter sa a = true)
      ∧ ((rows.filter (matchesFilter sa)).length ≤ (page - 1) * limit →
          (listArticles rows sa page limit).articles = [])))
  ∧ ((listArticles sampleRows10 false 1 9).articles.length = 9
    ∧ (listArticles sampleRows10 false 1 9).pagination.totalPages = 2
    ∧ (listArticles sampleRows10 false 2 9).articles.length = 1
    ∧ (listArticles sampleRows10 false 2 9).pagination.totalPages = 2
    ∧ (listArticles sampleRows10 false 1 9).articles
        ++ (listArticles sampleRows10 false 2 9).articles
        = sortBy newestFirst sampleRows10) := by
  constructor
  · intro rows sa page limit hp hl
    refine ⟨?_, rfl, ?_, ?_, listArticles_mem rows sa page limit, ?_⟩
    · simp only [listArticles, List.length_take]
      exact Nat.min_le_left _ _
    · intro k
      have htp : (listArticles rows sa page limit).pagination.totalPages
          = ((rows.filter (matchesFilter sa)).length + limit - 1) / limit := rfl
      rw [htp, Nat.div_le_iff_le_mul_add_pred hl]
      rw [Nat.mul_comm limit k]
      generalize (rows.filter (matchesFilter sa)).length = t
      generalize k * limit = M
      omega
    · have hs := sortBy_sorted newestFirst newestFirst_trans newestFirst_total
        (rows.filter (matchesFilter sa))
      have hs2 : List.Pairwise (fun a b : Article => b.createdAt ≤ a.createdAt)
          (sortBy newestFirst (rows.filter (matchesFilter sa))) := by
        refine hs.imp ?_
        intro a b hab
        simpa [newestFirst] using hab
      have hsub : (((sortBy newestFirst
          (rows.filter (matchesFilter sa))).drop
          ((page - 1) * limit)).take limit).Sublist
          (sortBy newestFirst (rows.filter (matchesFilter sa))) :=
        (List.take_sublist _ _).trans (List.drop_sublist _ _)
      exact hs2.sublist hsub
    · intro hof
      have hlen : (sortBy newestFirst
          (rows.filter (matchesFilter sa))).length
          = (rows.filter (matchesFilter sa)).length :=
        (sortBy_perm newestFirst (rows.filter (matchesFilter sa))).length_eq
      have hnil : (sortBy newestFirst
          (rows.filter (matchesFilter sa))).drop ((page - 1) * limit) = [] := by
        rw [List.drop_eq_nil_iff, hlen]
        exact hof
      show (((sortBy newestFirst (rows.filter (matchesFilter sa))).drop
          ((page - 1) * limit)).take limit) = []
      rw [hnil, List.take_nil]
  · refine ⟨by decide, by decide, by decide, by decide, by decide⟩

/-- Witness for C5 at the concrete ten-article table, page 1, limit 9. -/
theorem c5_pagination_contract_witness :
    (listArticles sampleRows10 false 1 9).articles.length ≤ 9
    ∧ (listArticles sampleRows10 false 1 9).pagination.total
        = (sampleRows10.filter (matchesFilter false)).length
    ∧ (∀ k, (listArticles sampleRows10 false 1 9).pagination.totalPages ≤ k
        ↔ (sampleRows10.filter (matchesFilter false)).length ≤ k * 9)
    ∧ List.Pairwise (fun a b => b.createdAt ≤ a.createdAt)
        (listArticles sampleRows10 false 1 9).articles
    ∧ (∀ a ∈ (listArticles sampleRows10 false 1 9).articles,
        a ∈ sampleRows10 ∧ matchesFilter false a = true)
    ∧ ((sampleRows10.filter (matchesFilter false)).length ≤ (1 - 1) * 9 →
        (listArticles sampleRows10 false 1 9).articles = []) :=
  c5_pagination_contract.1 sampleRows10 false 1 9 (by decide) (by decide)

/-! ## Query-string parsing of GET /api/articles -/

theorem jsOr_pos (n d : Int) (h : 1 ≤ n) : jsOr (some n) d = n := by
  cases n with
  | ofNat m =>
    cases m with
    | zero => exact absurd h (by decide)
    | succ k => rfl
  | negSucc m => rfl

/-- A 200 of GET /api/articles is exactly the listArticles result at the
parsed query values. -/
theorem getArticlesRoute_ok (query : List (String × String)) (db : DB)
    (resp : ArticlesPage) (h : getArticlesRoute query db = .okPage resp) :
    resp = listArticles db.articles
      (queryLookup query "showArchived" == some "true")
      (jsOr (jsParseIntOpt (queryLookup query "page")) 1).toNat
      (jsOr (jsParseIntOpt (queryLookup query "limit")) 9).toNat := by
  simp only [getArticlesRoute] at h
  split at h
  · cases h
  · injection h with h2
    exact h2.symm

/-- With positive parsed page and limit the guard cannot fire and the route
answers 200 with the corresponding listArticles result. -/
theorem getArticlesRoute_pos (query : List (String × String)) (db : DB)
    (P L : Int)
    (hP : jsOr (jsParseIntOpt (queryLookup query "page")) 1 = P)
    (hL : jsOr (jsParseIntOpt (queryLookup query "limit")) 9 = L)
    (hP1 : 1 ≤ P) (hL1 : 1 ≤ L) :
    getArticlesRoute query db = .okPage (listArticles db.articles
      (queryLookup query "showArchived" == some "true") P.toNat L.toNat) := by
  have h1 : ¬((P - 1) * L < 0) :=
    not_lt.mpr (mul_nonneg (by omega) (by omega))
  have h2 : ¬(L < 0) := by omega
  simp only [getArticlesRoute, hP, hL]
  rw [if_neg (by simp [h1, h2])]

/-- A database holding exactly one archived article. -/
def archivedDb : DB :=
  { articles := [{ sampleArticle 1 with archived := true }], citations := [],
    nextArticleId := 2, nextCitationId := 1 }

/-- The page returned for `archivedDb` when showArchived is exactly true. -/
def archivedPageResp : ArticlesPage :=
  { articles := [{ sampleArticle 1 with archived := true }],
    pagination := { total := 1, page := 1, limit := 9, totalPages := 1 } }

/-- The page returned for `archivedDb` without showArchived. -/
def emptyPageResp : ArticlesPage :=
  { articles := [],
    pagination := { total := 0, page := 1, limit := 9, totalPages := 0 } }

/-- C10: a missing or non-numeric page parameter defaults to page 1 and a
missing or non-numeric limit to limit 9 (also in combination with a parsed
positive value for the other parameter), and archived articles appear in
the result only when showArchived is exactly the string true — with any
other value or no value the result is restricted to non-archived rows. -/
theorem c10_query_defaults :
    (∀ (query : List (String × String)) (db : DB),
      jsParseIntOpt (queryLookup query "page") = none →
      jsParseIntOpt (queryLookup query "limit") = none →
      getArticlesRoute query db
        = .okPage (listArticles db.articles
            (queryLookup query "showArchived" == some "true") 1 9))
  ∧ (∀ (query : List (String × String)) (db : DB) (limit : Int),
      jsParseIntOpt (queryLookup query "page") = none →
      jsParseIntOpt (queryLookup query "limit") = some limit → 1 ≤ limit →
      getArticlesRoute query db
        = .okPage (listArticles db.articles
            (queryLookup query "showArchived" == some "true") 1 limit.toNat))
  ∧ (∀ (query : List (String × String)) (db : DB) (page : Int),
      jsParseIntOpt (queryLookup query "page") = some page → 1 ≤ page →
      jsParseIntOpt (queryLookup query "limit") = none →
      getArticlesRoute query db
        = .okPage (listArticles db.articles
            (queryLookup query "showArchived" == some "true") page.toNat 9))
  ∧ (∀ (query : List (String × String)) (db : DB) (resp : ArticlesPage),
      queryLookup query "showArchived" ≠ some "true" →
      getArticlesRoute query db = .okPage resp →
      ∀ a ∈ resp.articles, a.archived = false)
  ∧ (getArticlesRoute [("showArchived", "true")] archivedDb
        = .okPage archivedPageResp
    ∧ getArticlesRoute [] archivedDb = .okPage emptyPageResp) := by
  refine ⟨?_, ?_, ?_, ?_, by decide, by decide⟩
  · intro query db hp hl
    exact getArticlesRoute_pos query db 1 9 (by rw [hp]; rfl) (by rw [hl]; rfl)
      (by decide) (by decide)
  · intro query db limit hp hl hpos
    exact getArticlesRoute_pos query db 1 limit (by rw [hp]; rfl)
      (by rw [hl]; exact jsOr_pos limit 9 hpos) (by decide) hpos
  · intro query db page hp hpos hl
    exact getArticlesRoute_pos query db page 9
      (by rw [hp]; exact jsOr_pos page 1 hpos) (by rw [hl]; rfl) hpos (by decide)
  · intro query db resp hne h a ha
    have hsa : (queryLookup query "showArchived" == some "true") = false :=
      beq_eq_false_iff_ne.mpr hne
    have hresp := getArticlesRoute_ok query db resp h
    rw [hsa] at hresp
    subst hresp
    have hmem := listArticles_mem db.articles false
      (jsOr (jsParseIntOpt (queryLookup query "page")) 1).toNat
      (jsOr (jsParseIntOpt (queryLookup query "limit")) 9).toNat a ha
    simpa [matchesFilter] using hmem.2

/-- Witness for C10: a query with no parameters defaults to page 1 and
limit 9, and without showArchived the archived article is excluded. -/
theorem c10_query_defaults_witness :
    getArticlesRoute [] archivedDb
      = .okPage (listArticles archivedDb.articles
          (queryLookup [] "showArchived" == some "true") 1 9)
    ∧ (∀ a ∈ emptyPageResp.articles, a.archived = false) :=
  ⟨c10_query_defaults.1 [] archivedDb rfl rfl,
   c10_query_defaults.2.2.2.1 [] archivedDb emptyPageResp (by decide)
     c10_query_defaults.2.2.2.2.2⟩

/-! ## Citations round trip -/

/-- C8: persisting an article whose validated reply carries citations
source A and source B with year 2020 makes GET /api/articles/:id/citations
return exactly those two rows with source and year preserved (given that
the fresh article id references no pre-existing citation row, which the
identity counter guarantees); persisting an article with no citations makes
the same route return an empty list rather than an error. -/
theorem c8_citations_round_trip :
    (∀ (db : DB) (imageUrl audioUrl : String) (now : Nat)
      (t c s idStr : String),
      (∀ cr ∈ db.citations, cr.articleId ≠ db.nextArticleId) →
      jsParseInt idStr = some (db.nextArticleId : Int) →
      getCitationsRoute idStr
          (insertArticleWithCitations db
            { title := t, content := c, summary := s,
              citations := [{ source := "A" },
                            { source := "B", year := some 2020 }] }
            imageUrl audioUrl now).2
        = .okCitations
            [{ id := db.nextCitationId, articleId := db.nextArticleId,
               source := "A", author := none, year := none, url := none,
               quote := none },
             { id := db.nextCitationId + 1, articleId := db.nextArticleId,
               source := "B", author := none, year := some 2020, url := none,
               quote := none }])
  ∧ (∀ (db : DB) (imageUrl audioUrl : String) (now : Nat)
      (t c s idStr : String),
      (∀ cr ∈ db.citations, cr.articleId ≠ db.nextArticleId) →
      jsParseInt idStr = some (db.nextArticleId : Int) →
      getCitationsRoute idStr
          (insertArticleWithCitations db
            { title := t, content := c, summary := s, citations := [] }
            imageUrl audioUrl now).2
        = .okCitations []) := by
  constructor
  · intro db imageUrl audioUrl now t c s idStr hfresh hp
    have hold : db.citations.filter
        (fun cr => ((cr.articleId : Int) == (db.nextArticleId : Int))) = [] := by
      rw [List.filter_eq_nil_iff]
      intro cr hcr hbeq
      exact hfresh cr hcr (Int.natCast_inj.mp (eq_of_beq hbeq))
    simp [getCitationsRoute, hp, citationsFor, insertArticleWithCitations,
      List.filter_append, hold, List.enum]
  · intro db imageUrl audioUrl now t c s idStr hfresh hp
    have hold : db.citations.filter
        (fun cr => ((cr.articleId : Int) == (db.nextArticleId : Int))) = [] := by
      rw [List.filter_eq_nil_iff]
      intro cr hcr hbeq
      exact hfresh cr hcr (Int.natCast_inj.mp (eq_of_beq hbeq))
    simp [getCitationsRoute, hp, citationsFor, insertArticleWithCitations,
      List.filter_append, hold, List.enum]

/-- Witness for C8 on the empty database (fresh id 1, requested as "1"). -/
theorem c8_citations_round_trip_witness :
    getCitationsRoute "1"
        (insertArticleWithCitations DB.empty
          { title := "T", content := "C", summary := "S",
            citations := [{ source := "A" },
                          { source := "B", year := some 2020 }] }
          "img" "aud" 0).2
      = .okCitations
          [{ id := 1, articleId := 1, source := "A", author := none,
             year := none, url := none, quote := none },
           { id := 2, articleId := 1, source := "B", author := none,
             year := some 2020, url := none, quote := none }]
    ∧ getCitationsRoute "1"
        (insertArticleWithCitations DB.empty
          { title := "T", content := "C", summary := "S", citations := [] }
          "img" "aud" 0).2
      = .okCitations [] :=
  ⟨c8_citations_round_trip.1 DB.empty "img" "aud" 0 "T" "C" "S" "1"
      (by intro cr hcr; cases hcr) rfl,
   c8_citations_round_trip.2 DB.empty "img" "aud" 0 "T" "C" "S" "1"
      (by intro cr hcr; cases hcr) rfl⟩

end Scribe
